import Mathlib

/-!
Verification of the Steam idler session controller and retry scheduler
(`src/index.js`, two script variants in one file).  The definitions below are
a shallow embedding of the script's logic: environment variables become
`Option String` with JavaScript truthiness made explicit, the sentry file
becomes an `Option Blob` slot, handler bodies become pure functions returning
lists of effects, and the retry loop becomes a fold over a list of failure
codes.
-/

namespace Idler

/-- JavaScript truthiness of an environment variable: absent (`undefined`)
and the empty string are falsy. Embeds checks such as `if (SHARED_SECRET)`. -/
def truthy : Option String → Bool
  | none => false
  | some s => s ≠ ""

/-- The opaque sentry blob stored in the `./sentry` file. -/
structure Blob where
  bytes : List Nat
deriving DecidableEq, Repr

/-- Messages written to the console, abstracted to the categories the claims
mention. `base64Of b` stands for emitting `b.toString('base64')`. -/
inductive LogMsg where
  | info (s : String)
  | warn (s : String)
  | errMsg (s : String)
  | base64Of (b : Blob)
deriving DecidableEq, Repr

/-- Observable effects a handler body can perform. -/
inductive Effect where
  | log (m : LogMsg)
  | exitProcess (status : Nat)
  | answerChallenge (code : String)
  | callScheduleRetry (code : Option Nat)
  | writeSentryFile (b : Blob)
deriving DecidableEq, Repr

/-! ## Retry scheduler (variant 2, lines 197-237) -/

/-- `const MAX_RETRIES = 6;` (line 199). -/
def MAX_RETRIES : Nat := 6

/-- Mutable `retryCount` (line 198), initialized to zero at process start. -/
structure RetryState where
  retryCount : Nat
deriving DecidableEq, Repr

/-- Outcome of one `scheduleRetry` call: either the process exits or a new
login attempt is scheduled after `delay` milliseconds. -/
inductive RetryAction where
  | exited (status : Nat)
  | scheduled (delay : Nat)
deriving DecidableEq, Repr

/-- Embedding of `scheduleRetry(eresultCode)` (lines 222-237): increment
`retryCount`; if it exceeds `MAX_RETRIES`, exit with status 1; otherwise
compute `base = (eresultCode === 84) ? 60000 : 30000` and
`delay = base * Math.pow(2, Math.max(0, retryCount - 1))` and schedule the
next attempt. The failure code is `Option Nat` because the caller may pass
`e && e.eresult`, which can be `undefined`. -/
def scheduleRetry (eresultCode : Option Nat) (st : RetryState) :
    RetryAction × RetryState :=
  let rc := st.retryCount + 1
  if rc > MAX_RETRIES then
    (.exited 1, ⟨rc⟩)
  else
    let base := if eresultCode = some 84 then 60000 else 30000
    let delay := base * 2 ^ (max 0 (rc - 1))
    (.scheduled delay, ⟨rc⟩)

/-- Run the retry loop over a sequence of failure notifications: each failure
invokes `scheduleRetry`; once the process exits, no further failure is
processed. Returns the list of actions taken and the final retry state. -/
def runFailures : List (Option Nat) → RetryState → List RetryAction × RetryState
  | [], st => ([], st)
  | c :: cs, st =>
    match scheduleRetry c st with
    | (.exited k, st') => ([.exited k], st')
    | (.scheduled d, st') =>
      let rest := runFailures cs st'
      (.scheduled d :: rest.1, rest.2)

/-- Number of scheduled (i.e. actually retried) attempts in an action list. -/
def countScheduled (as : List RetryAction) : Nat :=
  as.countP (fun a => match a with | .scheduled _ => true | _ => false)

/-! ## Event handlers -/

/-- Number of retry-scheduler invocations among a handler's effects. -/
def countRetryCalls (es : List Effect) : Nat :=
  es.countP (fun e => match e with | .callScheduleRetry _ => true | _ => false)

/-- Number of process exits among a handler's effects. -/
def countExits (es : List Effect) : Nat :=
  es.countP (fun e => match e with | .exitProcess _ => true | _ => false)

/-- Number of sentry-file writes among a handler's effects. -/
def countSentryWrites (es : List Effect) : Nat :=
  es.countP (fun e => match e with | .writeSentryFile _ => true | _ => false)

/-- Number of challenge answers among a handler's effects. -/
def countAnswers (es : List Effect) : Nat :=
  es.countP (fun e => match e with | .answerChallenge _ => true | _ => false)

/-- Embedding of the first variant's steamGuard handler (lines 57-68): when a
truthy AUTHCODE is configured, the challenge callback is answered with it;
otherwise diagnostics are logged and the process exits with status 1. -/
def steamGuardHandlerV1 (authcode : Option String) : List Effect :=
  .log (.info "steamGuard event.") ::
  (if truthy authcode then
    [.log (.info "Using AUTHCODE from env to respond to Steam Guard challenge."),
     .answerChallenge (authcode.getD "")]
  else
    [.log (.errMsg "No AUTHCODE env var set. This environment cannot accept interactive Steam Guard input."),
     .log (.errMsg "If you received an email code, set it in the AUTHCODE env var and redeploy ONCE."),
     .log (.errMsg "After a successful login you will get a sentry blob in the logs."),
     .exitProcess 1])

/-- Embedding of the second variant's steamGuard handler (lines 172-177):
interactive codes are never attempted; the process always exits with
status 1 after logging the remediation steps. -/
def steamGuardHandlerV2 : List Effect :=
  [.log (.errMsg "steamGuard requested an email code"),
   .log (.errMsg "This deployment does NOT accept interactive codes. Aborting to avoid rate limits."),
   .log (.errMsg "Solution: enable mobile auth and set SHARED_SECRET, or set SENTRY after a successful desktop login."),
   .exitProcess 1]

/-- Embedding of the second variant's error-event handler (lines 179-187):
it only logs a summary (adding the eresult code when the error object
carries a truthy one) and performs nothing else. -/
def errorHandlerV2 (eresult : Option Nat) (message : String) : List Effect :=
  match eresult with
  | some r =>
    if r ≠ 0 then
      [.log (.errMsg message), .log (.errMsg "eresult code:")]
    else
      [.log (.errMsg message)]
  | none => [.log (.errMsg message)]

/-- Embedding of the logOnResponse handler (lines 240-252): for a truthy
eresult different from 1 (OK), a warning is logged and scheduleRetry is
invoked with the code; the source branches on code 84 but both branches make
the same single scheduleRetry call. -/
def logOnResponseHandler (eresult : Option Nat) : List Effect :=
  match eresult with
  | some r =>
    if r ≠ 0 ∧ r ≠ 1 then
      .log (.warn "LogOnResponse eresult:") ::
      (if r = 84 then [.callScheduleRetry (some r)] else [.callScheduleRetry (some r)])
    else []
  | none => []

/-- Embedding of the sentry handler (variant 2 lines 159-168; variant 1
lines 71-79 is identical up to log text): write the offered blob to the
sentry slot, overwriting whatever was stored, and log its base64 encoding. -/
def sentryHandler (t : Blob) (_storage : Option Blob) : Option Blob × List Effect :=
  (some t,
   [.writeSentryFile t,
    .log (.info "Saved sentry file locally."),
    .log (.info "Store this value in your SENTRY env var to avoid future email codes:"),
    .log (.base64Of t)])

/-! ## Login option builder and startup (variant 2, lines 104-219 and 260) -/

/-- The options bundle passed to client.logOn. -/
structure LogOnOptions where
  accountName : String
  password : String
  sentry : Option Blob
  twoFactorCode : Option String
deriving DecidableEq, Repr

/-- Embedding of buildLogOnOptions (lines 129-156). The external primitive
steamTotp.generateAuthCode reads the clock implicitly, so it is modelled as
a function `gen` of the secret and the current instant `now`, returning
`Except` because a malformed secret raises. Besides the options, the result
carries the number of generator invocations this build performed and the log
effects. -/
def buildLogOnOptions (username password : String) (sharedSecret : Option String)
    (sentryFile : Option Blob) (gen : String → Nat → Except String String)
    (now : Nat) : LogOnOptions × Nat × List Effect :=
  let opts : LogOnOptions :=
    { accountName := username, password := password, sentry := none, twoFactorCode := none }
  let withSentry :=
    match sentryFile with
    | some b =>
      (({ opts with sentry := some b } : LogOnOptions),
       [Effect.log (.info "Using existing sentry file for login.")])
    | none => (opts, ([] : List Effect))
  match sharedSecret with
  | some s =>
    if s ≠ "" then
      match gen s now with
      | .ok code =>
        (({ withSentry.1 with twoFactorCode := some code } : LogOnOptions), 1,
         withSentry.2 ++ [.log (.info "Using mobile 2FA for login.")])
      | .error e =>
        (withSentry.1, 1, withSentry.2 ++ [.log (.warn e)])
    else (withSentry.1, 0, withSentry.2)
  | none => (withSentry.1, 0, withSentry.2)

/-- Embedding of the first variant's top-level logOnOptions construction
(lines 32-54): same composition as buildLogOnOptions, but the two-factor
code is attached before the sentry blob. -/
def logOnOptionsV1 (username password : String) (sharedSecret : Option String)
    (sentryFile : Option Blob) (gen : String → Nat → Except String String)
    (now : Nat) : LogOnOptions × Nat × List Effect :=
  let opts : LogOnOptions :=
    { accountName := username, password := password, sentry := none, twoFactorCode := none }
  let withCode :=
    match sharedSecret with
    | some s =>
      if s ≠ "" then
        match gen s now with
        | .ok code =>
          (({ opts with twoFactorCode := some code } : LogOnOptions), 1, ([] : List Effect))
        | .error e => (opts, 1, [Effect.log (.errMsg e)])
      else (opts, 0, ([] : List Effect))
    | none => (opts, 0, ([] : List Effect))
  match sentryFile with
  | some b =>
    (({ withCode.1 with sentry := some b } : LogOnOptions), withCode.2.1,
     withCode.2.2 ++ [.log (.info "Using existing sentry file for login.")])
  | none => withCode

/-- Result of one attemptLogin call. -/
inductive AttemptOutcome where
  | exited (status : Nat)
  | submitted (opts : LogOnOptions)
deriving DecidableEq, Repr

/-- Embedding of attemptLogin (lines 201-219): build fresh options; when
neither a truthy SHARED_SECRET nor a sentry file is present, exit with
status 1 before submitting anything; otherwise submit the login with the
freshly built options. -/
def attemptLogin (username password : String) (sharedSecret : Option String)
    (sentryFile : Option Blob) (gen : String → Nat → Except String String)
    (now : Nat) : AttemptOutcome :=
  let opts := (buildLogOnOptions username password sharedSecret sentryFile gen now).1
  if !truthy sharedSecret && sentryFile.isNone then .exited 1
  else .submitted opts

/-- Process environment at startup. -/
structure Env where
  username : Option String
  password : Option String
  sharedSecret : Option String
  sentryEnv : Option String
deriving Repr

/-- What the startup path produced: the final sentry slot, the exit status
when the process exited, and the submitted options when a login went out. -/
structure StartupOutcome where
  storage : Option Blob
  exitCode : Option Nat
  submitted : Option LogOnOptions
deriving DecidableEq, Repr

/-- Embedding of the variant-2 startup path (lines 104-124 and 260): the
USERNAME/PASSWORD check exits with status 1 first; then the decoded SENTRY
env value is written to the sentry slot only when no file exists; finally
the first attemptLogin runs. `decode` stands for Buffer.from(s, base64). -/
def startup (env : Env) (storage : Option Blob) (decode : String → Blob)
    (gen : String → Nat → Except String String) (now : Nat) : StartupOutcome :=
  if !truthy env.username || !truthy env.password then
    { storage := storage, exitCode := some 1, submitted := none }
  else
    let storage1 :=
      if truthy env.sentryEnv && storage.isNone then
        some (decode (env.sentryEnv.getD ""))
      else storage
    let outcome := attemptLogin (env.username.getD "") (env.password.getD "")
      env.sharedSecret storage1 gen now
    { storage := storage1,
      exitCode := match outcome with | .exited s => some s | .submitted _ => none,
      submitted := match outcome with | .exited _ => none | .submitted opts => some opts }

end Idler

namespace Idler

theorem scheduleRetry_scheduled (code : Option Nat) (st : RetryState)
    (h : st.retryCount < MAX_RETRIES) :
    scheduleRetry code st =
      (.scheduled ((if code = some 84 then 60000 else 30000) * 2 ^ st.retryCount),
       ⟨st.retryCount + 1⟩) := by
  unfold scheduleRetry
  have hgt : ¬ (st.retryCount + 1 > MAX_RETRIES) := by omega
  simp only [hgt, if_false]
  simp

theorem MAX_RETRIES_eq : MAX_RETRIES = 6 := rfl

theorem countScheduled_nil : countScheduled [] = 0 := rfl

theorem countScheduled_cons_scheduled (d : Nat) (l : List RetryAction) :
    countScheduled (.scheduled d :: l) = countScheduled l + 1 := by
  simp [countScheduled, List.countP_cons]

theorem countScheduled_cons_exited (s : Nat) (l : List RetryAction) :
    countScheduled (.exited s :: l) = countScheduled l := by
  simp [countScheduled, List.countP_cons]

theorem countScheduled_runFailures_le (codes : List (Option Nat)) :
    ∀ k, countScheduled (runFailures codes ⟨k⟩).1 ≤ MAX_RETRIES - k := by
  induction codes with
  | nil =>
    intro k
    simp [runFailures, countScheduled_nil]
  | cons c cs ih =>
    intro k
    by_cases h : MAX_RETRIES < k + 1
    · have : scheduleRetry c ⟨k⟩ = (.exited 1, ⟨k + 1⟩) := by
        unfold scheduleRetry
        simp [h]
      simp [runFailures, this, countScheduled_cons_exited, countScheduled_nil]
    · have hlt : k < MAX_RETRIES := by omega
      have hr := scheduleRetry_scheduled c ⟨k⟩ hlt
      simp only [runFailures, hr, countScheduled_cons_scheduled]
      have := ih (k + 1)
      omega

theorem runFailures_exhausts (codes : List (Option Nat)) :
    ∀ k, k ≤ MAX_RETRIES → MAX_RETRIES + 1 - k ≤ codes.length →
      ∃ ds : List Nat, ds.length = MAX_RETRIES - k ∧
        (runFailures codes ⟨k⟩).1 = ds.map RetryAction.scheduled ++ [.exited 1] := by
  induction codes with
  | nil =>
    intro k hk hlen
    exfalso
    rw [MAX_RETRIES_eq] at hlen hk
    simp at hlen
    omega
  | cons c cs ih =>
    intro k hk hlen
    by_cases h : MAX_RETRIES < k + 1
    · have hact : scheduleRetry c ⟨k⟩ = (.exited 1, ⟨k + 1⟩) := by
        unfold scheduleRetry
        simp [h]
      refine ⟨[], ?_, ?_⟩
      · rw [MAX_RETRIES_eq] at h ⊢
        simp
        omega
      · simp [runFailures, hact]
    · have hlt : k < MAX_RETRIES := by omega
      have hr := scheduleRetry_scheduled c ⟨k⟩ hlt
      obtain ⟨ds, hds, hres⟩ := ih (k + 1) (by omega)
        (by rw [MAX_RETRIES_eq] at hlen ⊢; simp at hlen ⊢; omega)
      refine ⟨((if c = some 84 then 60000 else 30000) * 2 ^ k) :: ds, ?_, ?_⟩
      · rw [MAX_RETRIES_eq] at hds hlt ⊢
        simp [hds]
        omega
      · simp only [runFailures, hr, List.map_cons, List.cons_append]
        rw [hres]

/-- C1: for the N-th failure handled by `scheduleRetry` (so the state holds
`retryCount = N - 1 < 6`), the computed backoff delay is
`60000 * 2 ^ (N - 1)` ms when the failure code is the rate-limit code 84 and
`30000 * 2 ^ (N - 1)` ms otherwise; in particular the failure sequence
`[84, 84, 2]` yields delays `[60000, 120000, 120000]` ms. -/
theorem retry_backoff_delay (code : Option Nat) (st : RetryState)
    (h : st.retryCount < MAX_RETRIES) :
    (scheduleRetry code st).1 =
      .scheduled ((if code = some 84 then 60000 else 30000) * 2 ^ st.retryCount) ∧
    (runFailures [some 84, some 84, some 2] ⟨0⟩).1 =
      [.scheduled 60000, .scheduled 120000, .scheduled 120000] := by
  constructor
  · rw [scheduleRetry_scheduled code st h]
  · decide

/-- Witness for C1 at the first rate-limited failure. -/
theorem retry_backoff_delay_witness :
    (scheduleRetry (some 84) ⟨0⟩).1 = .scheduled 60000 ∧
    (runFailures [some 84, some 84, some 2] ⟨0⟩).1 =
      [.scheduled 60000, .scheduled 120000, .scheduled 120000] := by
  have h := retry_backoff_delay (some 84) ⟨0⟩ (by decide)
  exact ⟨by simpa using h.1, h.2⟩

/-- C2: over any sequence of failures starting from a fresh process, at most
6 retries are ever scheduled, and as soon as at least 7 failures occur the
run consists of exactly 6 scheduled retries followed by a process exit with
status 1 — the 7th failure terminates without scheduling another attempt. -/
theorem retry_ceiling (codes : List (Option Nat)) :
    countScheduled (runFailures codes ⟨0⟩).1 ≤ 6 ∧
    (7 ≤ codes.length →
      ∃ ds : List Nat, ds.length = 6 ∧
        (runFailures codes ⟨0⟩).1 =
          ds.map RetryAction.scheduled ++ [.exited 1]) := by
  constructor
  · have := countScheduled_runFailures_le codes 0
    simpa [MAX_RETRIES_eq] using this
  · intro hlen
    have := runFailures_exhausts codes 0 (by rw [MAX_RETRIES_eq]; omega)
      (by simpa [MAX_RETRIES_eq] using hlen)
    simpa [MAX_RETRIES_eq] using this

/-- Witness for C2 on a concrete sequence of 7 transient failures. -/
theorem retry_ceiling_witness :
    countScheduled (runFailures (List.replicate 7 (some 2)) ⟨0⟩).1 ≤ 6 ∧
    (∃ ds : List Nat, ds.length = 6 ∧
      (runFailures (List.replicate 7 (some 2)) ⟨0⟩).1 =
        ds.map RetryAction.scheduled ++ [.exited 1]) := by
  have h := retry_ceiling (List.replicate 7 (some 2))
  exact ⟨h.1, h.2 (by decide)⟩

/-- C3 counterexample: in the first script variant, when a truthy AUTHCODE
is configured, the steamGuard handler answers the challenge with it and does
not terminate the process — contradicting that a challenge always terminates
regardless of configuration, never answering. -/
theorem steamGuard_authcode_answers :
    Effect.answerChallenge "12345" ∈ steamGuardHandlerV1 (some "12345") ∧
    countExits (steamGuardHandlerV1 (some "12345")) = 0 := by
  decide

/-- C3 amended: neither steamGuard handler ever invokes the retry scheduler.
The robust variant always exits with status 1 and never answers; the first
variant exits with status 1 without answering when no truthy AUTHCODE is
configured, and answers the challenge with the configured AUTHCODE (without
exiting) when one is. -/
theorem steamGuard_never_retries (authcode : Option String) :
    countRetryCalls (steamGuardHandlerV1 authcode) = 0 ∧
    countRetryCalls steamGuardHandlerV2 = 0 ∧
    Effect.exitProcess 1 ∈ steamGuardHandlerV2 ∧
    countAnswers steamGuardHandlerV2 = 0 ∧
    (truthy authcode = false →
      Effect.exitProcess 1 ∈ steamGuardHandlerV1 authcode ∧
      countAnswers (steamGuardHandlerV1 authcode) = 0) ∧
    (∀ c, authcode = some c → c ≠ "" →
      Effect.answerChallenge c ∈ steamGuardHandlerV1 authcode ∧
      countExits (steamGuardHandlerV1 authcode) = 0) := by
  refine ⟨?_, by decide, by decide, by decide, ?_, ?_⟩
  · cases authcode with
    | none => decide
    | some c =>
      by_cases hc : c = ""
      · subst hc; decide
      · simp [steamGuardHandlerV1, truthy, hc, countRetryCalls, List.countP_cons]
  · intro hfalse
    cases authcode with
    | none => exact ⟨by decide, by decide⟩
    | some c =>
      have hc : c = "" := by
        by_contra hne
        simp [truthy, hne] at hfalse
      subst hc
      exact ⟨by decide, by decide⟩
  · intro c hc hne
    subst hc
    constructor
    · simp [steamGuardHandlerV1, truthy, hne]
    · simp [steamGuardHandlerV1, truthy, hne, countExits, List.countP_cons]

/-- Witness for the amended C3 at a concrete configured AUTHCODE. -/
theorem steamGuard_never_retries_witness :
    Effect.answerChallenge "777" ∈ steamGuardHandlerV1 (some "777") ∧
    countExits (steamGuardHandlerV1 (some "777")) = 0 :=
  (steamGuard_never_retries (some "777")).2.2.2.2.2 "777" rfl (by decide)

/-- C4 counterexample: the error-event handler, on an error carrying the
non-success eresult 5, makes zero scheduleRetry calls, not one — the code it
embeds (lines 179-187) only logs. -/
theorem error_event_does_not_forward :
    countRetryCalls (errorHandlerV2 (some 5) "Steam error:") = 0 := by
  decide

/-- C4 amended: failure codes reach the retry scheduler through the
logOnResponse handler, not the error-event handler: for every truthy
non-success eresult the logOnResponse handler makes exactly one
scheduleRetry call with that code (every such code is retried, permanent
authentication failures included), the error-event handler never calls the
scheduler, and only code 84 is classified with the larger 60000 ms base. -/
theorem failure_code_forwarding (r : Nat) (msg : String) (e : Option Nat)
    (st : RetryState) :
    (r ≠ 0 → r ≠ 1 →
      logOnResponseHandler (some r) =
        [.log (.warn "LogOnResponse eresult:"), .callScheduleRetry (some r)]) ∧
    countRetryCalls (errorHandlerV2 e msg) = 0 ∧
    (st.retryCount < MAX_RETRIES →
      (scheduleRetry (some r) st).1 =
        .scheduled ((if r = 84 then 60000 else 30000) * 2 ^ st.retryCount)) := by
  refine ⟨?_, ?_, ?_⟩
  · intro h0 h1
    simp [logOnResponseHandler, h0, h1]
  · cases e with
    | none => simp [errorHandlerV2, countRetryCalls, List.countP_cons]
    | some k =>
      by_cases hk : k = 0 <;>
        simp [errorHandlerV2, countRetryCalls, List.countP_cons, hk]
  · intro hlt
    rw [scheduleRetry_scheduled (some r) st hlt]
    simp

/-- Witness for the amended C4 at eresult 5 with retry state 0. -/
theorem failure_code_forwarding_witness :
    logOnResponseHandler (some 5) =
      [.log (.warn "LogOnResponse eresult:"), .callScheduleRetry (some 5)] ∧
    countRetryCalls (errorHandlerV2 (some 7) "Steam error:") = 0 ∧
    (scheduleRetry (some 5) ⟨0⟩).1 = .scheduled 30000 := by
  have h := failure_code_forwarding 5 "Steam error:" (some 7) ⟨0⟩
  exact ⟨h.1 (by decide) (by decide), h.2.1, by simpa using h.2.2 (by decide)⟩

/-- C5: whenever a truthy shared secret is present, each build of the login
options invokes the one-time code generator exactly once, at the build's own
current instant — every build is a fresh invocation and the code is never
cached across attempts. Holds for the variant-2 buildLogOnOptions and for
the variant-1 top-level construction alike. -/
theorem totp_fresh_per_build (u p s : String) (hs : s ≠ "")
    (sentryFile : Option Blob) (gen : String → Nat → Except String String)
    (now : Nat) :
    (buildLogOnOptions u p (some s) sentryFile gen now).2.1 = 1 ∧
    (buildLogOnOptions u p (some s) sentryFile gen now).1.twoFactorCode =
      (gen s now).toOption ∧
    (logOnOptionsV1 u p (some s) sentryFile gen now).2.1 = 1 ∧
    (logOnOptionsV1 u p (some s) sentryFile gen now).1.twoFactorCode =
      (gen s now).toOption := by
  cases hres : gen s now with
  | ok code =>
    cases sentryFile with
    | none => simp [buildLogOnOptions, logOnOptionsV1, hs, hres, Except.toOption]
    | some b => simp [buildLogOnOptions, logOnOptionsV1, hs, hres, Except.toOption]
  | error e =>
    cases sentryFile with
    | none => simp [buildLogOnOptions, logOnOptionsV1, hs, hres, Except.toOption]
    | some b => simp [buildLogOnOptions, logOnOptionsV1, hs, hres, Except.toOption]

/-- Witness for C5 with a concrete generator. -/
theorem totp_fresh_per_build_witness :
    (buildLogOnOptions "acct" "pw" (some "SECRET") none
        (fun _ _ => .ok "12345") 0).2.1 = 1 ∧
    (buildLogOnOptions "acct" "pw" (some "SECRET") none
        (fun _ _ => .ok "12345") 0).1.twoFactorCode = some "12345" ∧
    (logOnOptionsV1 "acct" "pw" (some "SECRET") none
        (fun _ _ => .ok "12345") 0).2.1 = 1 ∧
    (logOnOptionsV1 "acct" "pw" (some "SECRET") none
        (fun _ _ => .ok "12345") 0).1.twoFactorCode = some "12345" := by
  have h := totp_fresh_per_build "acct" "pw" "SECRET" (by decide) none
    (fun _ _ => .ok "12345") 0
  exact ⟨h.1, h.2.1, h.2.2.1, h.2.2.2⟩

/-- C6: a sentry event performs exactly one write to the sentry slot, the
slot afterwards holds exactly the offered token whatever was stored before
(overwrite, hence idempotent under repeated identical tokens), and the
base64 encoding of the token is emitted to the log. -/
theorem sentry_event_persists (t : Blob) (s s' : Option Blob) :
    countSentryWrites (sentryHandler t s).2 = 1 ∧
    (sentryHandler t s).1 = some t ∧
    (sentryHandler t (sentryHandler t s').1).1 = (sentryHandler t s).1 ∧
    Effect.log (.base64Of t) ∈ (sentryHandler t s).2 := by
  refine ⟨?_, rfl, rfl, ?_⟩
  · simp [sentryHandler, countSentryWrites, List.countP_cons]
  · simp [sentryHandler]

/-- C7: when the shared secret is present but the code generator fails, the
failure is logged as a warning, the two-factor code field is omitted, the
options still carry account name, password and any sentry blob, and the
login attempt proceeds to submission — the error is non-fatal. -/
theorem totp_failure_nonfatal (u p s e : String) (hs : s ≠ "")
    (sentryFile : Option Blob) (gen : String → Nat → Except String String)
    (now : Nat) (hgen : gen s now = .error e) :
    (buildLogOnOptions u p (some s) sentryFile gen now).1.twoFactorCode = none ∧
    (buildLogOnOptions u p (some s) sentryFile gen now).1.accountName = u ∧
    (buildLogOnOptions u p (some s) sentryFile gen now).1.password = p ∧
    (buildLogOnOptions u p (some s) sentryFile gen now).1.sentry = sentryFile ∧
    Effect.log (.warn e) ∈ (buildLogOnOptions u p (some s) sentryFile gen now).2.2 ∧
    attemptLogin u p (some s) sentryFile gen now =
      .submitted (buildLogOnOptions u p (some s) sentryFile gen now).1 := by
  cases sentryFile with
  | none =>
    refine ⟨?_, ?_, ?_, ?_, ?_, ?_⟩ <;>
      simp [buildLogOnOptions, attemptLogin, truthy, hs, hgen]
  | some b =>
    refine ⟨?_, ?_, ?_, ?_, ?_, ?_⟩ <;>
      simp [buildLogOnOptions, attemptLogin, truthy, hs, hgen]

/-- Witness for C7 with a concrete failing generator. -/
theorem totp_failure_nonfatal_witness :
    (buildLogOnOptions "acct" "pw" (some "bad") none
        (fun _ _ => .error "bad secret") 0).1.twoFactorCode = none ∧
    Effect.log (.warn "bad secret") ∈
      (buildLogOnOptions "acct" "pw" (some "bad") none
        (fun _ _ => .error "bad secret") 0).2.2 ∧
    attemptLogin "acct" "pw" (some "bad") none (fun _ _ => .error "bad secret") 0 =
      .submitted (buildLogOnOptions "acct" "pw" (some "bad") none
        (fun _ _ => .error "bad secret") 0).1 := by
  have h := totp_failure_nonfatal "acct" "pw" "bad" "bad secret" (by decide) none
    (fun _ _ => .error "bad secret") 0 rfl
  exact ⟨h.1, h.2.2.2.2.1, h.2.2.2.2.2⟩

/-- C8: when USERNAME or PASSWORD is missing or empty, startup exits with
status 1 immediately: the sentry slot is untouched and no login is
submitted. -/
theorem missing_credentials_fatal (env : Env) (storage : Option Blob)
    (decode : String → Blob) (gen : String → Nat → Except String String)
    (now : Nat)
    (h : truthy env.username = false ∨ truthy env.password = false) :
    startup env storage decode gen now =
      { storage := storage, exitCode := some 1, submitted := none } := by
  unfold startup
  rcases h with h | h <;> simp [h]

/-- Witness for C8 with a missing USERNAME. -/
theorem missing_credentials_fatal_witness :
    startup ⟨none, some "pw", none, none⟩ none (fun _ => ⟨[]⟩)
        (fun _ _ => .ok "12345") 0 =
      { storage := none, exitCode := some 1, submitted := none } :=
  missing_credentials_fatal ⟨none, some "pw", none, none⟩ none (fun _ => ⟨[]⟩)
    (fun _ _ => .ok "12345") 0 (Or.inl rfl)

/-- C9: a login attempt with neither a truthy shared secret nor a sentry
file exits with status 1 instead of submitting the login to the remote
service. -/
theorem no_second_factor_fatal (u p : String) (sharedSecret : Option String)
    (gen : String → Nat → Except String String) (now : Nat)
    (h : truthy sharedSecret = false) :
    attemptLogin u p sharedSecret none gen now = .exited 1 := by
  simp [attemptLogin, h]

/-- Witness for C9 with no shared secret and no sentry file. -/
theorem no_second_factor_fatal_witness :
    attemptLogin "acct" "pw" none none (fun _ _ => .ok "12345") 0 = .exited 1 :=
  no_second_factor_fatal "acct" "pw" none (fun _ _ => .ok "12345") 0 rfl

/-- C10: the startup SENTRY-env write is guarded by a file-existence check:
when a sentry blob is already stored, startup leaves the slot unchanged, and
the decoded SENTRY value is written only when the slot is empty (on the path
that passed the credential check). -/
theorem startup_storage_eq (env : Env) (storage : Option Blob)
    (decode : String → Blob) (gen : String → Nat → Except String String)
    (now : Nat) :
    (startup env storage decode gen now).storage =
      if (truthy env.username && truthy env.password) &&
          (truthy env.sentryEnv && storage.isNone) then
        some (decode (env.sentryEnv.getD ""))
      else storage := by
  unfold startup
  by_cases hu : truthy env.username
  · by_cases hp : truthy env.password
    · simp [hu, hp]
    · simp [hu, hp]
  · simp [hu]

theorem sentry_env_write_guard (env : Env) (b : Blob) (sv : String)
    (decode : String → Blob) (gen : String → Nat → Except String String)
    (now : Nat) :
    (startup env (some b) decode gen now).storage = some b ∧
    (truthy env.username = true → truthy env.password = true →
      env.sentryEnv = some sv → sv ≠ "" →
      (startup env none decode gen now).storage = some (decode sv)) := by
  constructor
  · rw [startup_storage_eq]
    simp
  · intro hu hp hsv hne
    rw [startup_storage_eq]
    have htr : truthy (some sv) = true := by simp [truthy, hne]
    simp [hu, hp, hsv, htr]

/-- Witness for C10 with a concrete environment and stored blob. -/
theorem sentry_env_write_guard_witness :
    (startup ⟨some "acct", some "pw", some "SECRET", some "QUJD"⟩ (some ⟨[1, 2]⟩)
        (fun _ => ⟨[65, 66, 67]⟩) (fun _ _ => .ok "12345") 0).storage = some ⟨[1, 2]⟩ ∧
    (startup ⟨some "acct", some "pw", some "SECRET", some "QUJD"⟩ none
        (fun _ => ⟨[65, 66, 67]⟩) (fun _ _ => .ok "12345") 0).storage =
      some ⟨[65, 66, 67]⟩ := by
  have h := sentry_env_write_guard ⟨some "acct", some "pw", some "SECRET", some "QUJD"⟩
    ⟨[1, 2]⟩ "QUJD" (fun _ => ⟨[65, 66, 67]⟩) (fun _ _ => .ok "12345") 0
  exact ⟨h.1, h.2 rfl rfl rfl (by decide)⟩

end Idler
